import Mathlib

/-!
Shallow embedding of `welfare_record_app` (src/main.py) in Lean 4.

The repository is a FastAPI web tool that extracts structured fields from
care-session evidence via a hosted LLM and writes them into cells of an
Excel template.  This development embeds, from the source:

* the spreadsheet writer `fill_excel` (workbooks as named sheets holding
  association lists of cells, each cell a value plus an alignment record),
  including the per-cell `try/except`, the `SheetName!Cell` resolution and
  the two conditional alignment rules;
* the priority-override block of `process_data` (manual fields overwriting
  AI-extracted keys, with the `%Y-%m-%d` date fan-out);
* the `/process` handler control flow (`process_data`), with the external
  effects (LLM call, clock, uuid generator, filesystem) passed in as
  explicit oracle arguments.

Python dicts are modelled as insertion-ordered association lists
(`List (String × _)`), where updating an existing key keeps its position
and a new key is appended, matching CPython dict semantics.  Python `None`
is `Option.none`; JSON values of the AI mapping are `Option String`.
-/

namespace WelfareApp

/-! ## Insertion-ordered association lists (Python `dict`) -/

/-- Lookup in an association list with `String` keys, first match wins
(Python `d[k]` / `k in d`). -/
def lookupStr {α : Type} : List (String × α) → String → Option α
  | [], _ => none
  | (k, v) :: rest, key => if k = key then some v else lookupStr rest key

/-- Update/insert for an association list: an existing key is overwritten in
place (keeping its position), a new key is appended at the end, exactly like
assignment into a CPython `dict`. -/
def setAssoc {α : Type} : List (String × α) → String → α → List (String × α)
  | [], k, v => [(k, v)]
  | (k', v') :: rest, k, v =>
    if k' = k then (k, v) :: rest else (k', v') :: setAssoc rest k v

theorem lookupStr_setAssoc_self {α : Type} (m : List (String × α)) (k : String) (v : α) :
    lookupStr (setAssoc m k v) k = some v := by
  induction m with
  | nil => simp [setAssoc, lookupStr]
  | cons p rest ih =>
    obtain ⟨k', v'⟩ := p
    by_cases h : k' = k <;> simp [setAssoc, lookupStr, h, ih]

theorem lookupStr_setAssoc_ne {α : Type} (m : List (String × α)) {k' k : String} (v : α)
    (h : k' ≠ k) : lookupStr (setAssoc m k' v) k = lookupStr m k := by
  induction m with
  | nil => simp [setAssoc, lookupStr, h]
  | cons p rest ih =>
    obtain ⟨k'', v''⟩ := p
    by_cases h2 : k'' = k' <;> by_cases h3 : k'' = k <;>
      simp_all [setAssoc, lookupStr]

/-- The field→value mapping returned by the AI (and mutated by the priority
overrides): Python `Dict[str, str]` whose values may be JSON `null`. -/
abbrev FieldMap := List (String × Option String)

/-! ## Cell alignment (openpyxl `Alignment`) and the formatting rules -/

/-- The slice of openpyxl's `Alignment` that `fill_excel` reads or writes.
`none` stands for an unset (Python `None`) attribute; `textRotation` and
`indent` default to `0` as in openpyxl. -/
structure Alignment where
  horizontal : Option String
  vertical : Option String
  textRotation : Nat
  wrapText : Option Bool
  shrinkToFit : Option Bool
  indent : Nat
deriving DecidableEq

/-- A fresh openpyxl `Alignment()` with every attribute left at its default. -/
def defaultAlignment : Alignment :=
  { horizontal := none, vertical := none, textRotation := 0,
    wrapText := none, shrinkToFit := none, indent := 0 }

/-- Python `x or default` on an openpyxl string attribute: `None` and the
empty string are falsy. -/
def orDefault (o : Option String) (d : String) : String :=
  match o with
  | some s => if s = "" then d else s
  | none => d

/-- List-level check that `pat` is an initial segment of `l` (used for the
Python `value.startswith("【")` test); written out so that it reduces in the
kernel. -/
def listLeads : List Char → List Char → Bool
  | [], _ => true
  | _ :: _, [] => false
  | a :: as, b :: bs => a == b && listLeads as bs

/-- Python `value.startswith("【")`. -/
def startsWithBracket (v : String) : Bool :=
  listLeads "【".toList v.toList

/-- The two conditional alignment rules of `fill_excel` (main.py lines
181-203), applied to a cell's current alignment after a string `value` has
been assigned to it:

* a short status tag (starts with `【`, fewer than 10 characters) forces
  centered, vertically rotated, wrapped text, keeping the current
  `shrink_to_fit` and `indent`;
* otherwise a string longer than 50 characters turns on wrapping with
  `horizontal`/`vertical` falling back to left/top, turns `shrink_to_fit`
  off and keeps `indent`;
* any other value leaves the alignment untouched.

Note that both branches build a fresh openpyxl `Alignment(...)`, so
attributes not passed to the constructor reset to their defaults (in
particular the long-text branch resets `text_rotation` to 0). -/
def applyFormat (v : String) (a : Alignment) : Alignment :=
  if startsWithBracket v = true ∧ v.length < 10 then
    { horizontal := some "center", vertical := some "center", textRotation := 255,
      wrapText := some true, shrinkToFit := a.shrinkToFit, indent := a.indent }
  else if v.length > 50 then
    { horizontal := some (orDefault a.horizontal "left"),
      vertical := some (orDefault a.vertical "top"), textRotation := 0,
      wrapText := some true, shrinkToFit := some false, indent := a.indent }
  else a

/-- C7: for every string value written to a cell, a short `【`-prefixed value
forces center/center alignment, text rotation 255 and wrapped text while
keeping the previous shrink-to-fit and indent; otherwise a value longer than
50 characters gets wrapped text with horizontal defaulting to left and
vertical to top (existing horizontal/vertical preserved); any other value
leaves the alignment unchanged. -/
theorem claim_C7_alignment_rules (v : String) (a : Alignment) :
    (startsWithBracket v = true → v.length < 10 →
      applyFormat v a =
        { horizontal := some "center", vertical := some "center", textRotation := 255,
          wrapText := some true, shrinkToFit := a.shrinkToFit, indent := a.indent })
    ∧ (¬ (startsWithBracket v = true ∧ v.length < 10) → v.length > 50 →
      applyFormat v a =
        { horizontal := some (orDefault a.horizontal "left"),
          vertical := some (orDefault a.vertical "top"), textRotation := 0,
          wrapText := some true, shrinkToFit := some false, indent := a.indent })
    ∧ (¬ (startsWithBracket v = true ∧ v.length < 10) → ¬ (v.length > 50) →
      applyFormat v a = a) := by
  refine ⟨?_, ?_, ?_⟩
  · intro h1 h2
    simp [applyFormat, h1, h2]
  · intro h1 h2
    rw [applyFormat, if_neg h1, if_pos h2]
  · intro h1 h2
    rw [applyFormat, if_neg h1, if_neg h2]

/-- A 60-character plain string, used to exercise the long-text rule. -/
def sixtyAs : String := String.mk (List.replicate 60 'a')

/-- Witness for C7: `"【達成】"` (4 characters) triggers the vertical status-tag
formatting, a 60-character string triggers wrap-only formatting, and a short
plain string leaves the alignment unchanged. -/
theorem claim_C7_alignment_rules_witness :
    (applyFormat "【達成】" defaultAlignment =
      { horizontal := some "center", vertical := some "center", textRotation := 255,
        wrapText := some true, shrinkToFit := defaultAlignment.shrinkToFit,
        indent := defaultAlignment.indent })
    ∧ (applyFormat sixtyAs defaultAlignment =
      { horizontal := some (orDefault defaultAlignment.horizontal "left"),
        vertical := some (orDefault defaultAlignment.vertical "top"), textRotation := 0,
        wrapText := some true, shrinkToFit := some false,
        indent := defaultAlignment.indent })
    ∧ applyFormat "短い" defaultAlignment = defaultAlignment :=
  ⟨(claim_C7_alignment_rules "【達成】" defaultAlignment).1 (by decide) (by decide),
   (claim_C7_alignment_rules sixtyAs defaultAlignment).2.1 (by decide) (by decide),
   (claim_C7_alignment_rules "短い" defaultAlignment).2.2 (by decide) (by decide)⟩

/-! ## Workbooks (the slice of openpyxl that `fill_excel` touches) -/

/-- A spreadsheet cell: its value and its alignment.  A template cell whose
value was never set holds `none`. -/
structure Cell where
  value : Option String
  align : Alignment
deriving DecidableEq

/-- A cell that was never touched: empty value, default alignment. -/
def blankCell : Cell := { value := none, align := defaultAlignment }

/-- One worksheet: its name and its cells, keyed by coordinate string
(for example `"C3"`). -/
structure Worksheet where
  name : String
  cells : List (String × Cell)
deriving DecidableEq

/-- A workbook is its ordered list of worksheets; the first one plays the
role of `wb.active`. -/
structure Workbook where
  sheets : List Worksheet
deriving DecidableEq

def Workbook.sheetNames (wb : Workbook) : List String :=
  wb.sheets.map Worksheet.name

/-- The name of `wb.active` (openpyxl always has at least one sheet in a
loaded workbook; the empty-workbook fallback is never reached). -/
def Workbook.activeName (wb : Workbook) : String :=
  match wb.sheets with
  | [] => ""
  | ws :: _ => ws.name

def Worksheet.getCell (ws : Worksheet) (coord : String) : Cell :=
  (lookupStr ws.cells coord).getD blankCell

/-- Find the worksheet with the given name (openpyxl `wb[name]`; sheet names
are unique in a workbook, so first match suffices). -/
def findSheet : List Worksheet → String → Option Worksheet
  | [], _ => none
  | ws :: rest, n => if ws.name = n then some ws else findSheet rest n

/-- Read a cell of a named sheet (template default `blankCell` if the sheet
or cell is absent). -/
def Workbook.getCell (wb : Workbook) (sName coord : String) : Cell :=
  match findSheet wb.sheets sName with
  | some ws => ws.getCell coord
  | none => blankCell

/-- Apply `f` to the sheet named `sName`, leaving every other sheet alone. -/
def Workbook.modifySheet (wb : Workbook) (sName : String) (f : Worksheet → Worksheet) :
    Workbook :=
  ⟨wb.sheets.map (fun ws => if ws.name = sName then f ws else ws)⟩

/-- The effect of `target_sheet[cell_coord] = value` followed by the two
conditional alignment rules on one worksheet: the cell's value becomes
`value` and its alignment becomes `applyFormat value old.align`. -/
def Worksheet.writeCell (ws : Worksheet) (coord v : String) : Worksheet :=
  { ws with cells := setAssoc ws.cells coord (Cell.mk (some v) (applyFormat v (ws.getCell coord).align)) }

/-- The same write, addressed at a named sheet of the workbook. -/
def Workbook.writeValue (wb : Workbook) (sName coord v : String) : Workbook :=
  wb.modifySheet sName (fun ws => ws.writeCell coord v)

/-- Validity of a cell coordinate string as accepted by openpyxl's
coordinate parser for plain (non-absolute) references: one to three letters
followed by at least one digit.  `fill_excel`'s per-cell `try` block fails
exactly when the coordinate is rejected (for example a `"Sheet!C3"` string
used verbatim as a coordinate); openpyxl's additional column/row bound
checks are not relevant to any template coordinate here. -/
def ValidCoord (s : String) : Prop :=
  s.toList.takeWhile Char.isAlpha ≠ []
  ∧ (s.toList.takeWhile Char.isAlpha).length ≤ 3
  ∧ s.toList.dropWhile Char.isAlpha ≠ []
  ∧ ∀ c ∈ s.toList.dropWhile Char.isAlpha, c.isDigit = true

instance (s : String) : Decidable (ValidCoord s) := by
  unfold ValidCoord; exact inferInstance

/-! ## The spreadsheet writer `fill_excel` -/

/-- Python `config_value.split("!")` on the character level (CPython
`str.split` with a one-character separator). -/
def splitOnChar (ch : Char) : List Char → List (List Char)
  | [] => [[]]
  | c :: rest =>
    if c = ch then [] :: splitOnChar ch rest
    else
      match splitOnChar ch rest with
      | [] => [[c]]
      | h :: t => (c :: h) :: t

/-- `config_value.split("!")` as used by `fill_excel` (main.py line 165). -/
def splitOnBang (s : String) : List String :=
  (splitOnChar '!' s.toList).map String.mk

/-- `default_sheet` selection of `fill_excel` (main.py lines 145-149): the
popped `_sheet_name`, if truthy and among the workbook's sheet names,
otherwise `wb.active`. -/
def defaultSheetOf (wb : Workbook) (sheetName : Option String) : String :=
  match sheetName with
  | some n => if n ≠ "" ∧ n ∈ wb.sheetNames then n else wb.activeName
  | none => wb.activeName

/-- Resolution of a configured mapping value into (target sheet name, cell
coordinate), main.py lines 159-170: a `"SheetName!Cell"` value whose sheet
exists is split; any other shape (no `"!"`, more than one `"!"`, or an
unknown sheet name) leaves the default sheet and the unsplit string as the
coordinate. -/
def resolveTarget (sheetNames : List String) (defName : String) (cv : String) :
    String × String :=
  if '!' ∈ cv.toList then
    match splitOnBang cv with
    | [sName, cCoord] =>
      if sName ∈ sheetNames then (sName, cCoord) else (defName, cv)
    | _ => (defName, cv)
  else (defName, cv)

/-- One iteration of the `for label, value in mapping.items()` loop of
`fill_excel` (main.py lines 155-205): labels absent from `config_mapping`
are ignored; a `None` value is skipped inside the `try` (preserving the
template cell); an invalid resolved coordinate makes the write raise, which
the per-cell `except` catches, skipping the field; otherwise the value is
assigned and the alignment rules applied. -/
def processField (wb : Workbook) (defName : String)
    (config_mapping : List (String × String)) (e : String × Option String) : Workbook :=
  match lookupStr config_mapping e.1 with
  | none => wb
  | some config_value =>
    let t := resolveTarget wb.sheetNames defName config_value
    match e.2 with
    | none => wb
    | some v => if ValidCoord t.2 then wb.writeValue t.1 t.2 v else wb

/-- The whole `for` loop of `fill_excel`, head first (Python dicts iterate
in insertion order). -/
def fillCells (wb : Workbook) (defName : String)
    (config_mapping : List (String × String)) : FieldMap → Workbook
  | [] => wb
  | e :: rest => fillCells (processField wb defName config_mapping e) defName config_mapping rest

/-- The filename chosen by `fill_excel` (main.py lines 207-210): the
caller-supplied `output_name` if any, else a fresh
`processed_<uuid4 hex>.xlsx`.  The hex digits of the freshly drawn uuid are
passed in as an oracle argument. -/
def outputFilename (output_name : Option String) (uuidHex : String) : String :=
  match output_name with
  | some n => n
  | none => "processed_" ++ uuidHex ++ ".xlsx"

structure FillResult where
  workbook : Workbook
  filename : String
deriving DecidableEq

/-- `fill_excel(template_path, mapping, config_mapping, output_name)`
(main.py lines 140-214).  The workbook loaded from `template_path` is passed
in directly; the `mapping.pop("_sheet_name")` of the source is modelled by
taking the popped sheet name as the separate argument `sheetName` and the
remaining mapping as `mapping`.  The function always saves and returns a
filename: per-cell failures are absorbed by `processField`. -/
def fill_excel (wb : Workbook) (mapping : FieldMap) (sheetName : Option String)
    (config_mapping : List (String × String)) (output_name : Option String)
    (uuidHex : String) : FillResult :=
  ⟨fillCells wb (defaultSheetOf wb sheetName) config_mapping mapping,
   outputFilename output_name uuidHex⟩

/-! ## Frame and skip lemmas about the writer loop -/

theorem findSheet_name : ∀ {sheets : List Worksheet} {s : String} {ws : Worksheet},
    findSheet sheets s = some ws → ws.name = s := by
  intro sheets
  induction sheets with
  | nil => intro s ws h; cases h
  | cons w rest ih =>
    intro s ws h
    by_cases hw : w.name = s
    · rw [findSheet, if_pos hw] at h
      injection h with h
      subst h
      exact hw
    · rw [findSheet, if_neg hw] at h
      exact ih h

theorem findSheet_modify (s' : String) (f : Worksheet → Worksheet)
    (hf : ∀ ws, (f ws).name = ws.name) :
    ∀ (sheets : List Worksheet) (s : String),
      findSheet (sheets.map (fun ws => if ws.name = s' then f ws else ws)) s
        = Option.map (fun ws => if ws.name = s' then f ws else ws) (findSheet sheets s) := by
  intro sheets s
  induction sheets with
  | nil => rfl
  | cons w rest ih =>
    simp only [List.map_cons, findSheet]
    by_cases hws : w.name = s'
    · by_cases hwn : w.name = s
      · rw [if_pos hws, if_pos (show (f w).name = s by rw [hf, hwn]), if_pos hwn]
        simp [hws]
      · rw [if_pos hws, if_neg (show ¬ (f w).name = s by rw [hf]; exact hwn), if_neg hwn, ih]
    · by_cases hwn : w.name = s
      · rw [if_neg hws, if_pos hwn, if_pos hwn]
        simp [hws]
      · rw [if_neg hws, if_neg hwn, if_neg hwn, ih]

theorem map_name_modify (s' : String) (f : Worksheet → Worksheet)
    (hf : ∀ ws, (f ws).name = ws.name) :
    ∀ sheets : List Worksheet,
      (sheets.map (fun ws => if ws.name = s' then f ws else ws)).map Worksheet.name
        = sheets.map Worksheet.name := by
  intro sheets
  induction sheets with
  | nil => rfl
  | cons w rest ih =>
    simp only [List.map_cons, ih]
    by_cases hws : w.name = s' <;> simp [hws, hf]

theorem sheetNames_writeValue (wb : Workbook) (s' c' v : String) :
    (wb.writeValue s' c' v).sheetNames = wb.sheetNames :=
  map_name_modify s' (fun ws => ws.writeCell c' v) (fun _ => rfl) wb.sheets

theorem getCell_writeValue_ne (wb : Workbook) (s' c' v s c : String)
    (h : ¬ (s = s' ∧ c = c')) :
    (wb.writeValue s' c' v).getCell s c = wb.getCell s c := by
  simp only [Workbook.writeValue, Workbook.modifySheet, Workbook.getCell]
  rw [findSheet_modify s' (fun ws => ws.writeCell c' v) (fun _ => rfl) wb.sheets s]
  cases hfind : findSheet wb.sheets s with
  | none => rfl
  | some ws =>
    simp only [Option.map_some']
    by_cases hss : ws.name = s'
    · have hname : ws.name = s := findSheet_name hfind
      have hcc : c' ≠ c := by
        intro hc
        exact h ⟨hname.symm.trans hss, hc.symm⟩
      rw [if_pos hss]
      simp only [Worksheet.getCell, Worksheet.writeCell]
      rw [lookupStr_setAssoc_ne _ _ hcc]
    · rw [if_neg hss]

theorem sheetNames_processField (wb : Workbook) (dn : String)
    (cfg : List (String × String)) (e : String × Option String) :
    (processField wb dn cfg e).sheetNames = wb.sheetNames := by
  unfold processField
  cases hcv : lookupStr cfg e.1 with
  | none => rfl
  | some cv =>
    cases hv : e.2 with
    | none => rfl
    | some v =>
      by_cases hvc : ValidCoord (resolveTarget wb.sheetNames dn cv).2
      · simp [hvc, sheetNames_writeValue]
      · simp [hvc]

theorem getCell_processField (wb : Workbook) (dn : String)
    (cfg : List (String × String)) (e : String × Option String) (s c : String)
    (h : ∀ cv, lookupStr cfg e.1 = some cv → (s, c) ≠ resolveTarget wb.sheetNames dn cv) :
    (processField wb dn cfg e).getCell s c = wb.getCell s c := by
  unfold processField
  cases hcv : lookupStr cfg e.1 with
  | none => rfl
  | some cv =>
    cases hv : e.2 with
    | none => rfl
    | some v =>
      by_cases hvc : ValidCoord (resolveTarget wb.sheetNames dn cv).2
      · simp only [hvc, if_true]
        apply getCell_writeValue_ne
        intro ⟨h1, h2⟩
        apply h cv hcv
        rw [h1, h2]
      · simp [hvc]

theorem getCell_fillCells (dn : String) (cfg : List (String × String)) (s c : String) :
    ∀ (mapping : FieldMap) (wb : Workbook),
      (∀ e ∈ mapping, ∀ cv, lookupStr cfg e.1 = some cv →
        (s, c) ≠ resolveTarget wb.sheetNames dn cv) →
      (fillCells wb dn cfg mapping).getCell s c = wb.getCell s c := by
  intro mapping
  induction mapping with
  | nil => intro wb _; rfl
  | cons e rest ih =>
    intro wb h
    show (fillCells (processField wb dn cfg e) dn cfg rest).getCell s c = _
    have hrest : ∀ e' ∈ rest, ∀ cv, lookupStr cfg e'.1 = some cv →
        (s, c) ≠ resolveTarget (processField wb dn cfg e).sheetNames dn cv := by
      intro e' he' cv hcv
      rw [sheetNames_processField]
      exact h e' (List.mem_cons_of_mem _ he') cv hcv
    rw [ih (processField wb dn cfg e) hrest,
      getCell_processField wb dn cfg e s c (fun cv hcv => h e (List.mem_cons_self _ _) cv hcv)]

/-- C3: the Spreadsheet Writer writes only to cells that are the resolved
target of a field present in both the extracted mapping and the template's
declared `config_mapping`; every other cell of the output workbook keeps the
template's original value and formatting.  (A key absent from
`config_mapping` contributes no target at all, so unknown extracted keys are
silently ignored.) -/
theorem claim_C3_frame (wb : Workbook) (sheetName : Option String)
    (config_mapping : List (String × String)) (mapping : FieldMap)
    (output_name : Option String) (uuidHex : String) (s c : String)
    (h : ∀ e ∈ mapping, ∀ cv, lookupStr config_mapping e.1 = some cv →
      (s, c) ≠ resolveTarget wb.sheetNames (defaultSheetOf wb sheetName) cv) :
    (fill_excel wb mapping sheetName config_mapping output_name uuidHex).workbook.getCell s c
      = wb.getCell s c :=
  getCell_fillCells _ _ s c mapping wb h

/-- Sample workbook for the C3 witness: a template with a title in `A1` and
an empty target cell `C3`. -/
def c3Workbook : Workbook :=
  ⟨[⟨"Sheet1", [("A1", { value := some "モニタリング報告", align := defaultAlignment }),
                ("C3", blankCell)]⟩]⟩

/-- Witness for C3: filling `{"氏名" ↦ "山田"}` through the mapping
`{"氏名" ↦ "C3"}` leaves the unrelated template cell `A1` untouched. -/
theorem claim_C3_frame_witness :
    (fill_excel c3Workbook [("氏名", some "山田")] none [("氏名", "C3")] none
        "u1").workbook.getCell "Sheet1" "A1"
      = c3Workbook.getCell "Sheet1" "A1" :=
  claim_C3_frame c3Workbook none [("氏名", "C3")] [("氏名", some "山田")] none "u1"
    "Sheet1" "A1"
    (by
      intro e he cv hcv
      simp only [List.mem_singleton] at he
      subst he
      have hlk : lookupStr [("氏名", "C3")] ("氏名", some "山田").1 = some "C3" := by decide
      rw [hlk] at hcv
      injection hcv with hcv
      subst hcv
      decide)

theorem processField_none_value (wb : Workbook) (dn : String)
    (cfg : List (String × String)) (l : String) :
    processField wb dn cfg (l, none) = wb := by
  unfold processField
  cases hcv : lookupStr cfg l <;> rfl

theorem processField_invalid (wb : Workbook) (dn : String)
    (cfg : List (String × String)) (l : String) (v : Option String)
    (h : ∃ cv vs, lookupStr cfg l = some cv ∧ v = some vs ∧
      ¬ ValidCoord (resolveTarget wb.sheetNames dn cv).2) :
    processField wb dn cfg (l, v) = wb := by
  obtain ⟨cv, vs, h1, h2, h3⟩ := h
  subst h2
  unfold processField
  simp [h1, h3]

theorem fillCells_skip (dn : String) (cfg : List (String × String))
    (l : String) (v : Option String) (names : List String)
    (hfail : ∀ wb : Workbook, wb.sheetNames = names → processField wb dn cfg (l, v) = wb) :
    ∀ (xs : FieldMap) (wb : Workbook), wb.sheetNames = names → ∀ ys,
      fillCells wb dn cfg (xs ++ (l, v) :: ys) = fillCells wb dn cfg (xs ++ ys) := by
  intro xs
  induction xs with
  | nil =>
    intro wb hw ys
    show fillCells (processField wb dn cfg (l, v)) dn cfg ys = fillCells wb dn cfg ys
    rw [hfail wb hw]
  | cons x xs ih =>
    intro wb hw ys
    show fillCells (processField wb dn cfg x) dn cfg (xs ++ (l, v) :: ys)
      = fillCells (processField wb dn cfg x) dn cfg (xs ++ ys)
    exact ih _ (by rw [sheetNames_processField, hw]) ys

/-! ## C2: null values versus empty-string values -/

/-- Template workbook for the C2 counterexample: the target cell `C3`
already carries content from the template. -/
def c2Workbook : Workbook :=
  ⟨[⟨"Sheet1", [("C3", { value := some "既存の内容", align := defaultAlignment })]⟩]⟩

/-- C2 counterexample: the claim says an empty-string value leaves the
target cell unmodified, but `fill_excel` only skips `None` (main.py line
174) — a value of `""` is assigned to the cell, overwriting the template's
original content. -/
theorem claim_C2_counterexample :
    (fill_excel c2Workbook [("氏名", some "")] none [("氏名", "C3")] none
        "u1").workbook.getCell "Sheet1" "C3"
      ≠ c2Workbook.getCell "Sheet1" "C3" := by decide

/-- C2 amended: only a `None` (null) value leaves the target cell
unmodified — the pair is skipped and the output equals the run without it;
an empty-string value is written like any other string. -/
theorem claim_C2_amended (wb : Workbook) (sheetName : Option String)
    (cfg : List (String × String)) (xs ys : FieldMap) (l : String)
    (output_name : Option String) (uuidHex : String) :
    fill_excel wb (xs ++ (l, none) :: ys) sheetName cfg output_name uuidHex
      = fill_excel wb (xs ++ ys) sheetName cfg output_name uuidHex := by
  unfold fill_excel
  rw [fillCells_skip (defaultSheetOf wb sheetName) cfg l none wb.sheetNames
    (fun wb' _ => processField_none_value wb' (defaultSheetOf wb sheetName) cfg l) xs wb rfl ys]

/-! ## C8: a per-cell write failure does not abort the document -/

/-- C8: when writing one field fails (its resolved coordinate is rejected by
openpyxl, so the assignment raises and the per-cell `except` catches it),
the failing field is skipped: the output equals the run without that field,
every other mapped field is still written, and `fill_excel` still saves and
returns the output filename. -/
theorem claim_C8_per_cell_failure (wb : Workbook) (sheetName : Option String)
    (cfg : List (String × String)) (xs ys : FieldMap) (l : String) (v : Option String)
    (output_name : Option String) (uuidHex : String)
    (h : ∃ cv vs, lookupStr cfg l = some cv ∧ v = some vs ∧
      ¬ ValidCoord (resolveTarget wb.sheetNames (defaultSheetOf wb sheetName) cv).2) :
    fill_excel wb (xs ++ (l, v) :: ys) sheetName cfg output_name uuidHex
      = fill_excel wb (xs ++ ys) sheetName cfg output_name uuidHex
    ∧ (fill_excel wb (xs ++ (l, v) :: ys) sheetName cfg output_name uuidHex).filename
      = outputFilename output_name uuidHex := by
  constructor
  · unfold fill_excel
    rw [fillCells_skip (defaultSheetOf wb sheetName) cfg l v wb.sheetNames ?_ xs wb rfl ys]
    intro wb' hw'
    apply processField_invalid
    obtain ⟨cv, vs, h1, h2, h3⟩ := h
    exact ⟨cv, vs, h1, h2, by rw [hw']; exact h3⟩
  · rfl

/-- Workbook and template configuration for the C8 witness; the coordinate
`"ZZZZ1"` (four letters) is rejected by openpyxl's coordinate parser. -/
def c8Workbook : Workbook := ⟨[⟨"Sheet1", [("B2", blankCell)]⟩]⟩

def c8Config : List (String × String) := [("状況", "ZZZZ1"), ("所感", "B2")]

/-- Witness for C8: the field `状況` aimed at invalid coordinate `ZZZZ1` is
skipped, the run equals the run without it (so `所感` is still written), and
the filename is still produced. -/
theorem claim_C8_per_cell_failure_witness :
    fill_excel c8Workbook [("状況", some "値"), ("所感", some "コメント")] none c8Config none "u1"
      = fill_excel c8Workbook [("所感", some "コメント")] none c8Config none "u1"
    ∧ (fill_excel c8Workbook [("状況", some "値"), ("所感", some "コメント")] none c8Config none
        "u1").filename = outputFilename none "u1" :=
  claim_C8_per_cell_failure c8Workbook none c8Config [] [("所感", some "コメント")]
    "状況" (some "値") none "u1" ⟨"ZZZZ1", "値", by decide, rfl, by decide⟩

/-! ## C10: `SheetName!Cell` with an unknown sheet name -/

theorem splitOnChar_not_mem (ch : Char) :
    ∀ l : List Char, ch ∉ l → splitOnChar ch l = [l] := by
  intro l
  induction l with
  | nil => intro _; rfl
  | cons c rest ih =>
    intro h
    have hc : ¬ c = ch := fun hc => h (hc ▸ List.mem_cons_self c rest)
    have hr : ch ∉ rest := fun hr => h (List.mem_cons_of_mem _ hr)
    simp only [splitOnChar, hc, if_false, ih hr]

theorem splitOnChar_append (ch : Char) (l2 : List Char) :
    ∀ l1 : List Char, ch ∉ l1 →
      splitOnChar ch (l1 ++ ch :: l2) = l1 :: splitOnChar ch l2 := by
  intro l1
  induction l1 with
  | nil => intro _; simp [splitOnChar]
  | cons c t ih =>
    intro h
    have hc : ¬ c = ch := fun hc => h (hc ▸ List.mem_cons_self c t)
    have ht : ch ∉ t := fun hr => h (List.mem_cons_of_mem _ hr)
    simp only [List.cons_append, splitOnChar, hc, if_false, List.append_eq, ih ht]

theorem toList_append_bang (sName cCoord : String) :
    (sName ++ "!" ++ cCoord).toList = sName.toList ++ '!' :: cCoord.toList := by
  obtain ⟨d1⟩ := sName
  obtain ⟨d2⟩ := cCoord
  show (d1 ++ ['!']) ++ d2 = d1 ++ '!' :: d2
  simp

theorem bang_mem_toList (sName cCoord : String) :
    '!' ∈ (sName ++ "!" ++ cCoord).toList := by
  rw [toList_append_bang]
  exact List.mem_append.mpr (Or.inr (List.mem_cons_self _ _))

theorem splitOnBang_append (sName cCoord : String)
    (h1 : '!' ∉ sName.toList) (h2 : '!' ∉ cCoord.toList) :
    splitOnBang (sName ++ "!" ++ cCoord) = [sName, cCoord] := by
  unfold splitOnBang
  rw [toList_append_bang, splitOnChar_append _ _ _ h1, splitOnChar_not_mem _ _ h2]
  show [String.mk sName.toList, String.mk cCoord.toList] = [sName, cCoord]
  obtain ⟨d1⟩ := sName
  obtain ⟨d2⟩ := cCoord
  rfl

theorem not_validCoord_of_bang (s : String) (h : '!' ∈ s.toList) : ¬ ValidCoord s := by
  intro ⟨h1, h2, h3, h4⟩
  have hsplit : s.toList.takeWhile Char.isAlpha ++ s.toList.dropWhile Char.isAlpha
      = s.toList := List.takeWhile_append_dropWhile Char.isAlpha s.toList
  rw [← hsplit] at h
  rcases List.mem_append.mp h with hin | hin
  · have halpha := List.mem_takeWhile_imp hin
    exact absurd halpha (by decide)
  · have hdigit := h4 _ hin
    exact absurd hdigit (by decide)

/-- C10: a configured mapping value `"SheetName!Cell"` whose sheet name is
not in the workbook is not split (main.py lines 163-170): the whole unsplit
string stays as the coordinate on the default sheet, where the write raises,
the per-cell `except` skips the field, and the remaining fields and the save
proceed — equal to the run without that field. -/
theorem claim_C10_unknown_sheet (wb : Workbook) (sheetName : Option String)
    (cfg : List (String × String)) (xs ys : FieldMap) (l v sName cCoord : String)
    (output_name : Option String) (uuidHex : String)
    (hcfg : lookupStr cfg l = some (sName ++ "!" ++ cCoord))
    (hsheet : sName ∉ wb.sheetNames)
    (h1 : '!' ∉ sName.toList) (h2 : '!' ∉ cCoord.toList) :
    resolveTarget wb.sheetNames (defaultSheetOf wb sheetName) (sName ++ "!" ++ cCoord)
      = (defaultSheetOf wb sheetName, sName ++ "!" ++ cCoord)
    ∧ fill_excel wb (xs ++ (l, some v) :: ys) sheetName cfg output_name uuidHex
      = fill_excel wb (xs ++ ys) sheetName cfg output_name uuidHex := by
  have hres : ∀ names : List String, sName ∉ names →
      resolveTarget names (defaultSheetOf wb sheetName) (sName ++ "!" ++ cCoord)
        = (defaultSheetOf wb sheetName, sName ++ "!" ++ cCoord) := by
    intro names hn
    unfold resolveTarget
    rw [if_pos (bang_mem_toList sName cCoord), splitOnBang_append sName cCoord h1 h2]
    simp only [if_neg hn]
  refine ⟨hres wb.sheetNames hsheet, ?_⟩
  unfold fill_excel
  rw [fillCells_skip (defaultSheetOf wb sheetName) cfg l (some v) wb.sheetNames ?_ xs wb rfl ys]
  intro wb' hw'
  apply processField_invalid
  refine ⟨sName ++ "!" ++ cCoord, v, hcfg, rfl, ?_⟩
  rw [hw', hres wb.sheetNames hsheet]
  exact not_validCoord_of_bang _ (bang_mem_toList sName cCoord)

/-- Workbook and configuration for the C10 witness: the mapping value
`"予備!C3"` names a sheet `予備` that does not exist in the workbook. -/
def c10Workbook : Workbook := ⟨[⟨"記録", [("C3", blankCell), ("B2", blankCell)]⟩]⟩

def c10Config : List (String × String) := [("目標", "予備!C3"), ("氏名", "B2")]

/-- Witness for C10: with sheet `予備` absent, the unsplit `"予備!C3"` is
kept as the coordinate on the default sheet, the field `目標` is skipped,
and the run equals the run without it. -/
theorem claim_C10_unknown_sheet_witness :
    resolveTarget c10Workbook.sheetNames (defaultSheetOf c10Workbook none) ("予備" ++ "!" ++ "C3")
      = (defaultSheetOf c10Workbook none, "予備" ++ "!" ++ "C3")
    ∧ fill_excel c10Workbook [("目標", some "達成"), ("氏名", some "山田")] none c10Config none "u1"
      = fill_excel c10Workbook [("氏名", some "山田")] none c10Config none "u1" :=
  claim_C10_unknown_sheet c10Workbook none c10Config [] [("氏名", some "山田")]
    "目標" "達成" "予備" "C3" none "u1" (by decide) (by decide) (by decide) (by decide)

/-! ## The priority-override block of `process_data` (main.py lines 426-471) -/

/-- ASCII whitespace as recognised by Python `str.strip()`. -/
def pyIsSpace (c : Char) : Bool :=
  c = ' ' || c = '\t' || c = '\n' || c = '\r' || c = '\x0b' || c = '\x0c'

/-- Python `str.strip()` restricted to the ASCII whitespace characters
(space, tab, newline, carriage return, vertical tab, form feed); the manual
form fields this app strips are ASCII-or-Japanese text where these are the
only whitespace that occurs. -/
def pyStrip (s : String) : String :=
  String.mk (((s.toList.dropWhile pyIsSpace).reverse.dropWhile pyIsSpace).reverse)

/-- The guard `if field and field.strip():` used by every manual override: a
form field counts as given when it is present, non-empty and non-blank, and
the (unstripped) value is then used. -/
def manualGiven : Option String → Option String
  | none => none
  | some s => if s ≠ "" ∧ pyStrip s ≠ "" then some s else none

/-- Assign the same value to a sequence of keys, left to right (consecutive
`mapping[k] = v` statements). -/
def setKeys (m : FieldMap) (keys : List String) (v : Option String) : FieldMap :=
  keys.foldl (fun acc k => setAssoc acc k v) m

/-- Assign a list of key/value pairs, left to right. -/
def setMany (m : FieldMap) (kvs : List (String × String)) : FieldMap :=
  kvs.foldl (fun acc kv => setAssoc acc kv.1 (some kv.2)) m

/-- One manual-override step: when the form field is given (truthy and
non-blank), write its value under each of the listed alias keys. -/
def setIfGiven (m : FieldMap) (field : Option String) (keys : List String) : FieldMap :=
  match manualGiven field with
  | some u => setKeys m keys (some u)
  | none => m

/-! ### Dates: `datetime.strptime(date, "%Y-%m-%d")` and the derived keys -/

structure Date where
  year : Nat
  month : Nat
  day : Nat
deriving DecidableEq

def isLeap (y : Nat) : Bool :=
  y % 4 = 0 && (y % 100 ≠ 0 || y % 400 = 0)

def daysInMonth (y m : Nat) : Nat :=
  if m = 2 then (if isLeap y then 29 else 28)
  else if m = 4 ∨ m = 6 ∨ m = 9 ∨ m = 11 then 30
  else 31

/-- Decimal value of a digit string. -/
def digitsToNat (l : List Char) : Nat :=
  l.foldl (fun a c => a * 10 + (c.toNat - 48)) 0

/-- CPython `datetime.strptime(s, "%Y-%m-%d")`, returning `none` where the
original raises `ValueError`: the year is exactly four digits, month and day
are one or two digits (CPython's `%m`/`%d` accept unpadded values), the
whole string must be consumed, and the resulting calendar date must be valid
(year at least 1, month 1-12, day within the month's length, Gregorian leap
rule).  ASCII digits only, which covers every input this app receives. -/
def strptimeYmd (s : String) : Option Date :=
  match splitOnChar '-' s.toList with
  | [ys, ms, ds] =>
    if ys.all Char.isDigit ∧ ys.length = 4 ∧
        ms.all Char.isDigit ∧ (ms.length = 1 ∨ ms.length = 2) ∧
        ds.all Char.isDigit ∧ (ds.length = 1 ∨ ds.length = 2) then
      if 1 ≤ digitsToNat ys ∧ 1 ≤ digitsToNat ms ∧ digitsToNat ms ≤ 12 ∧
          1 ≤ digitsToNat ds ∧ digitsToNat ds ≤ daysInMonth (digitsToNat ys) (digitsToNat ms) then
        some ⟨digitsToNat ys, digitsToNat ms, digitsToNat ds⟩
      else none
    else none
  | _ => none

/-- Zero-pad a number to the given width (CPython `strftime` `%Y`, `%m`,
`%d`). -/
def padZero (n w : Nat) : String :=
  let s := toString n
  if s.length < w then String.mk (List.replicate (w - s.length) '0') ++ s else s

/-- `dt.strftime("%Y年%m月%d日")`. -/
def strftimeYmd (d : Date) : String :=
  padZero d.year 4 ++ "年" ++ padZero d.month 2 ++ "月" ++ padZero d.day 2 ++ "日"

/-- `f"令和{dt.year - 2018}年{dt.month}月{dt.day}日"` (main.py line 451);
the era year is a Python `int`, so it is signed. -/
def reiwaStr (d : Date) : String :=
  "令和" ++ toString ((d.year : Int) - 2018) ++ "年" ++ toString d.month ++ "月"
    ++ toString d.day ++ "日"

/-- The seven key/value pairs assigned by the date override, in program
order (main.py lines 443-451). -/
def dateDerived (d : Date) : List (String × String) :=
  [("作成年_西暦", toString d.year ++ "年"),
   ("作成月", toString d.month ++ "月"),
   ("作成日", toString d.day ++ "日"),
   ("作成年月日", strftimeYmd d),
   ("日付", strftimeYmd d),
   ("実施日", strftimeYmd d),
   ("開催日（令和〇年〇月〇日）", reiwaStr d)]

/-- The names of the seven date-derived keys. -/
def dateKeyNames : List String :=
  ["作成年_西暦", "作成月", "作成日", "作成年月日", "日付", "実施日",
   "開催日（令和〇年〇月〇日）"]

/-- The date branch of the override block (main.py lines 439-453): when the
`date` field is given and parses as `%Y-%m-%d`, the seven derived keys are
assigned; a parse failure hits `except ValueError: pass`, leaving the
mapping untouched and raising nothing. -/
def applyDateOverride (m : FieldMap) (field : Option String) : FieldMap :=
  match manualGiven field with
  | none => m
  | some ds =>
    match strptimeYmd ds with
    | none => m
    | some d => setMany m (dateDerived d)

/-- The manual structured form fields of `POST /process`. -/
structure ManualFields where
  user_name : Option String
  user_name_furigana : Option String
  staff_name : Option String
  date : Option String
  location : Option String
  time : Option String
  count : Option String
  next_date : Option String
  cm_location : Option String
  cm_time : Option String
  cm_attendees : Option String
  cm_service_manager : Option String
deriving DecidableEq

/-- All manual fields absent. -/
def emptyManualFields : ManualFields :=
  ⟨none, none, none, none, none, none, none, none, none, none, none, none⟩

/-- The whole PRIORITY OVERRIDE block (main.py lines 426-471), in program
order: user name (two alias keys), furigana (two), staff name, the date
fan-out, casemeeting location/time/attendees, the `利用者様` alias of the
user name, and the service manager. -/
def applyOverrides (mapping : FieldMap) (mf : ManualFields) : FieldMap :=
  let m1 := setIfGiven mapping mf.user_name ["利用者氏名", "氏名"]
  let m2 := setIfGiven m1 mf.user_name_furigana ["利用者氏名_ふりがな", "氏名のふりがな"]
  let m3 := setIfGiven m2 mf.staff_name ["作成者"]
  let m4 := applyDateOverride m3 mf.date
  let m5 := setIfGiven m4 mf.cm_location ["開催場所"]
  let m6 := setIfGiven m5 mf.cm_time ["開催時間"]
  let m7 := setIfGiven m6 mf.cm_attendees ["会議出席者"]
  let m8 := setIfGiven m7 mf.user_name ["利用者様"]
  setIfGiven m8 mf.cm_service_manager ["サービス管理責任者"]

/-! ### Lookup lemmas for the override steps -/

theorem lookupStr_setKeys_not_mem (v : Option String) (k : String) :
    ∀ (keys : List String) (m : FieldMap), k ∉ keys →
      lookupStr (setKeys m keys v) k = lookupStr m k := by
  intro keys
  induction keys with
  | nil => intro m _; rfl
  | cons k0 rest ih =>
    intro m h
    rw [List.mem_cons, not_or] at h
    show lookupStr (setKeys (setAssoc m k0 v) rest v) k = lookupStr m k
    rw [ih _ h.2, lookupStr_setAssoc_ne _ _ (Ne.symm h.1)]

theorem lookupStr_setKeys_mem (v : Option String) (k : String) :
    ∀ (keys : List String) (m : FieldMap), k ∈ keys →
      lookupStr (setKeys m keys v) k = some v := by
  intro keys
  induction keys with
  | nil => intro m h; cases h
  | cons k0 rest ih =>
    intro m h
    show lookupStr (setKeys (setAssoc m k0 v) rest v) k = some v
    by_cases hr : k ∈ rest
    · exact ih _ hr
    · have hk : k = k0 := by
        rcases List.mem_cons.mp h with h1 | h1
        · exact h1
        · exact absurd h1 hr
      subst hk
      rw [lookupStr_setKeys_not_mem v k rest _ hr, lookupStr_setAssoc_self]

theorem lookupStr_setMany_not_mem (k : String) :
    ∀ (kvs : List (String × String)) (m : FieldMap), k ∉ kvs.map Prod.fst →
      lookupStr (setMany m kvs) k = lookupStr m k := by
  intro kvs
  induction kvs with
  | nil => intro m _; rfl
  | cons kv rest ih =>
    intro m h
    simp only [List.map_cons, List.mem_cons, not_or] at h
    show lookupStr (setMany (setAssoc m kv.1 (some kv.2)) rest) k = lookupStr m k
    rw [ih _ h.2, lookupStr_setAssoc_ne _ _ (Ne.symm h.1)]

theorem lookupStr_setIfGiven_not_mem (m : FieldMap) (field : Option String)
    (keys : List String) (k : String) (h : k ∉ keys) :
    lookupStr (setIfGiven m field keys) k = lookupStr m k := by
  unfold setIfGiven
  cases manualGiven field with
  | none => rfl
  | some u => exact lookupStr_setKeys_not_mem (some u) k keys m h

theorem lookupStr_setIfGiven_mem (m : FieldMap) (field : Option String)
    (keys : List String) (k u : String)
    (hg : manualGiven field = some u) (h : k ∈ keys) :
    lookupStr (setIfGiven m field keys) k = some (some u) := by
  unfold setIfGiven
  rw [hg]
  exact lookupStr_setKeys_mem (some u) k keys m h

theorem lookupStr_applyDateOverride_not_mem (m : FieldMap) (field : Option String)
    (k : String) (h : k ∉ dateKeyNames) :
    lookupStr (applyDateOverride m field) k = lookupStr m k := by
  rcases hg : manualGiven field with _ | ds
  · simp [applyDateOverride, hg]
  · rcases hs : strptimeYmd ds with _ | d
    · simp [applyDateOverride, hg, hs]
    · simp only [applyDateOverride, hg, hs]
      apply lookupStr_setMany_not_mem
      show k ∉ (dateDerived d).map Prod.fst
      have hmap : (dateDerived d).map Prod.fst = dateKeyNames := rfl
      rw [hmap]
      exact h

theorem manualGiven_of_strip_ne (u : String) (h : pyStrip u ≠ "") :
    manualGiven (some u) = some u := by
  have hne : u ≠ "" := by
    intro h0
    apply h
    rw [h0]
    rfl
  simp only [manualGiven]
  rw [if_pos ⟨hne, h⟩]

theorem applyDateOverride_parse_fail (m : FieldMap) (ds : String)
    (h : strptimeYmd ds = none) : applyDateOverride m (some ds) = m := by
  rcases hg : manualGiven (some ds) with _ | u
  · simp [applyDateOverride, hg]
  · have hu : u = ds := by
      simp only [manualGiven] at hg
      by_cases hc : ds ≠ "" ∧ pyStrip ds ≠ ""
      · rw [if_pos hc] at hg
        injection hg with hg
        exact hg.symm
      · rw [if_neg hc] at hg
        cases hg
    subst hu
    simp [applyDateOverride, hg, h]

/-! ### C4: manual user name wins under all three alias keys -/

/-- C4: whenever the manual `user_name` is non-empty after trimming, the
resolved mapping carries it under `氏名`, `利用者氏名` and `利用者様`,
whatever the extracted mapping held for those keys. -/
theorem claim_C4_user_name_override (mapping : FieldMap) (mf : ManualFields) (u : String)
    (h1 : mf.user_name = some u) (h2 : pyStrip u ≠ "") :
    lookupStr (applyOverrides mapping mf) "氏名" = some (some u)
    ∧ lookupStr (applyOverrides mapping mf) "利用者氏名" = some (some u)
    ∧ lookupStr (applyOverrides mapping mf) "利用者様" = some (some u) := by
  have hg : manualGiven mf.user_name = some u := by
    rw [h1]
    exact manualGiven_of_strip_ne u h2
  simp only [applyOverrides]
  refine ⟨?_, ?_, ?_⟩
  · rw [lookupStr_setIfGiven_not_mem _ _ _ _ (by decide),
        lookupStr_setIfGiven_not_mem _ _ _ _ (by decide),
        lookupStr_setIfGiven_not_mem _ _ _ _ (by decide),
        lookupStr_setIfGiven_not_mem _ _ _ _ (by decide),
        lookupStr_setIfGiven_not_mem _ _ _ _ (by decide),
        lookupStr_applyDateOverride_not_mem _ _ _ (by decide),
        lookupStr_setIfGiven_not_mem _ _ _ _ (by decide),
        lookupStr_setIfGiven_not_mem _ _ _ _ (by decide)]
    exact lookupStr_setIfGiven_mem _ _ _ _ u hg (by decide)
  · rw [lookupStr_setIfGiven_not_mem _ _ _ _ (by decide),
        lookupStr_setIfGiven_not_mem _ _ _ _ (by decide),
        lookupStr_setIfGiven_not_mem _ _ _ _ (by decide),
        lookupStr_setIfGiven_not_mem _ _ _ _ (by decide),
        lookupStr_setIfGiven_not_mem _ _ _ _ (by decide),
        lookupStr_applyDateOverride_not_mem _ _ _ (by decide),
        lookupStr_setIfGiven_not_mem _ _ _ _ (by decide),
        lookupStr_setIfGiven_not_mem _ _ _ _ (by decide)]
    exact lookupStr_setIfGiven_mem _ _ _ _ u hg (by decide)
  · rw [lookupStr_setIfGiven_not_mem _ _ _ _ (by decide)]
    exact lookupStr_setIfGiven_mem _ _ _ _ u hg (by decide)

/-- Manual fields of the C4 witness: only `user_name = "B"`. -/
def c4Manual : ManualFields := { emptyManualFields with user_name := some "B" }

/-- Witness for C4: extracted `{"氏名": "A"}` with manual `user_name="B"`
resolves to `"B"` under all three alias keys. -/
theorem claim_C4_user_name_override_witness :
    lookupStr (applyOverrides [("氏名", some "A")] c4Manual) "氏名" = some (some "B")
    ∧ lookupStr (applyOverrides [("氏名", some "A")] c4Manual) "利用者氏名" = some (some "B")
    ∧ lookupStr (applyOverrides [("氏名", some "A")] c4Manual) "利用者様" = some (some "B") :=
  claim_C4_user_name_override [("氏名", some "A")] c4Manual "B" rfl (by decide)

/-! ### C5: the date fan-out on "2026-05-20" -/

/-- Containment of `pat` in `l` as a contiguous substring, by scanning. -/
def containsSubAux (pat : List Char) : List Char → Bool
  | [] => pat.isEmpty
  | c :: rest => listLeads pat (c :: rest) || containsSubAux pat rest

/-- Substring containment on strings. -/
def strContains (s pat : String) : Bool := containsSubAux pat.toList s.toList

/-- Manual fields of the C5 theorem: only `date = "2026-05-20"`. -/
def c5Manual : ManualFields := { emptyManualFields with date := some "2026-05-20" }

/-- C5: the manual date "2026-05-20" populates at least six derived date
keys; the era key `開催日（令和〇年〇月〇日）` receives `令和8年5月20日`
(which contains "8年5月20日", era year 2026-2018=8), and `作成年月日`,
`日付`, `実施日` all receive "2026年05月20日". -/
theorem claim_C5_date_fanout :
    dateKeyNames.countP (fun k => (lookupStr (applyOverrides [] c5Manual) k).isSome) ≥ 6
    ∧ lookupStr (applyOverrides [] c5Manual) "開催日（令和〇年〇月〇日）"
        = some (some "令和8年5月20日")
    ∧ strContains "令和8年5月20日" "8年5月20日" = true
    ∧ lookupStr (applyOverrides [] c5Manual) "作成年月日" = some (some "2026年05月20日")
    ∧ lookupStr (applyOverrides [] c5Manual) "日付" = some (some "2026年05月20日")
    ∧ lookupStr (applyOverrides [] c5Manual) "実施日" = some (some "2026年05月20日") := by
  decide

/-! ### C6: malformed dates skip the whole date override -/

/-- C6: a manual date that `strptime("%Y-%m-%d")` rejects skips the date
override atomically — none of the seven date-derived keys of the extracted
mapping is added or changed (and, the model being a total function, nothing
is raised: the source hits `except ValueError: pass`). -/
theorem claim_C6_malformed_date (m : FieldMap) (mf : ManualFields) (ds : String)
    (h1 : mf.date = some ds) (h2 : strptimeYmd ds = none) :
    ∀ k ∈ dateKeyNames, lookupStr (applyOverrides m mf) k = lookupStr m k := by
  intro k hk
  have hdate : ∀ m' : FieldMap, applyDateOverride m' mf.date = m' := by
    intro m'
    rw [h1]
    exact applyDateOverride_parse_fail m' ds h2
  simp only [applyOverrides]
  rw [hdate]
  fin_cases hk <;>
    rw [lookupStr_setIfGiven_not_mem _ _ _ _ (by decide),
        lookupStr_setIfGiven_not_mem _ _ _ _ (by decide),
        lookupStr_setIfGiven_not_mem _ _ _ _ (by decide),
        lookupStr_setIfGiven_not_mem _ _ _ _ (by decide),
        lookupStr_setIfGiven_not_mem _ _ _ _ (by decide),
        lookupStr_setIfGiven_not_mem _ _ _ _ (by decide),
        lookupStr_setIfGiven_not_mem _ _ _ _ (by decide),
        lookupStr_setIfGiven_not_mem _ _ _ _ (by decide)]

/-- Manual fields of the C6 witness: a slash-separated date the parser
rejects. -/
def c6Manual : ManualFields := { emptyManualFields with date := some "2026/05/20" }

/-- Witness for C6: with malformed date "2026/05/20", the extracted value
under `日付` survives override resolution unchanged. -/
theorem claim_C6_malformed_date_witness :
    lookupStr (applyOverrides [("日付", some "元の値")] c6Manual) "日付"
      = lookupStr [("日付", some "元の値")] "日付" :=
  claim_C6_malformed_date [("日付", some "元の値")] c6Manual "2026/05/20" rfl (by decide)
    "日付" (by decide)

/-! ## The `POST /process` handler (main.py lines 329-510)

External effects are passed as oracle arguments: whether the template file
exists on disk, the outcome of the Gemini call (`AIResult`), the workbook
loaded from the template file, the hex digits of the uuid drawn for this
request, and `datetime.now().strftime("%y.%m.%d")`.  The special
`monitoring_final` branch only changes what is sent to the AI, which the
`AIResult` oracle already absorbs. -/

/-- One entry of the template registry `mapping_config.json`
(`TEMPLATE_CONFIG[template_id]`). -/
structure TemplateDef where
  name : String
  filename : String
  sheet_name : Option String
  mapping : List (String × String)
deriving DecidableEq

/-- Outcome of `call_gemini`: a parsed field mapping, or the `str(e)` of the
`HTTPException` it raised (client missing, API error, unparseable
response). -/
inductive AIResult where
  | ok (fields : FieldMap)
  | error (msg : String)
deriving DecidableEq

/-- Outcome of the handler: `{"filename": ...}` plus the saved workbook, or
an `HTTPException` with status code and detail. -/
inductive ProcessResult where
  | ok (filename : String) (workbook : Workbook)
  | httpError (statusCode : Nat) (detail : String)
deriving DecidableEq

def ProcessResult.filenameOf : ProcessResult → Option String
  | .ok f _ => some f
  | .httpError _ _ => none

/-- Python string truthiness of an optional form field. -/
def truthy : Option String → Bool
  | some s => !s.toList.isEmpty
  | none => false

/-- `text_input or ""`. -/
def orEmpty : Option String → String
  | some s => s
  | none => ""

/-- One `if field: manual_info_list.append(f"{tag}{field}")` block. -/
def infoLine (field : Option String) (tag : String) : List String :=
  if truthy field = true then [tag ++ orEmpty field] else []

/-- The `manual_info_list` built in main.py lines 359-371, in program order
(note `user_name_furigana` is never appended). -/
def manualInfoList (mf : ManualFields) : List String :=
  infoLine mf.user_name "利用者名 (User Name): "
  ++ infoLine mf.staff_name "作成担当者 (Staff Name): "
  ++ infoLine mf.date "日付 (Date): "
  ++ infoLine mf.location "開催場所 (Location): "
  ++ infoLine mf.time "時間 (Time): "
  ++ infoLine mf.count "回数 (Count): "
  ++ infoLine mf.next_date "次回予定 (Next Date): "
  ++ infoLine mf.cm_service_manager "サービス管理責任者 (Service Manager): "
  ++ infoLine mf.cm_location "開催場所 (Location): "
  ++ infoLine mf.cm_time "開催時間 (Time): "
  ++ infoLine mf.cm_attendees "会議出席者 (Attendees): "

/-- Python `"\n".join(...)`. -/
def joinWith (sep : String) : List String → String
  | [] => ""
  | [s] => s
  | s :: rest => s ++ sep ++ joinWith sep rest

/-- `manual_info_text` (main.py lines 373-377). -/
def manualInfoText (mf : ManualFields) : String :=
  if manualInfoList mf = [] then ""
  else
    "\n\n【基本情報 (Basic Information provided by User)】\n"
      ++ joinWith "\n" (manualInfoList mf) ++ "\n"
      ++ "IMPORTANT: Please use the above \x27Basic Information\x27 to fill the corresponding fields in the output JSON.\n"

/-- Python `str.isalnum()` over the character ranges this application
encounters: ASCII alphanumerics plus hiragana, katakana (without the
katakana middle dot, which is punctuation) and the common CJK ideographs. -/
def pyIsAlnum (c : Char) : Bool :=
  c.isAlphanum
  || (0x3041 ≤ c.toNat && c.toNat ≤ 0x309F)
  || (0x30A0 ≤ c.toNat && c.toNat ≤ 0x30FF && c.toNat ≠ 0x30FB)
  || (0x4E00 ≤ c.toNat && c.toNat ≤ 0x9FFF)

/-- `safe_user_name` (main.py line 499): keep alphanumerics, ASCII and
full-width spaces, underscore and hyphen. -/
def sanitizeName (s : String) : String :=
  String.mk (s.toList.filter (fun c => pyIsAlnum c || c = ' ' || c = '　' || c = '_' || c = '-'))

/-- The `possible_keys` scan of main.py lines 485-489: the first key whose
value is present and truthy wins. -/
def pickUserNameKey (m : FieldMap) : List String → Option String
  | [] => none
  | k :: rest =>
    match lookupStr m k with
    | some (some v) => if v ≠ "" then some v else pickUserNameKey m rest
    | _ => pickUserNameKey m rest

/-- `user_name_val` as of main.py line 491: the scan result, falling back to
`"名称未設定"`, then replaced by `mapping["氏名のふりがな"]` when still the
placeholder and that key exists.  A result of `none` means the Python value
is `None` (the furigana key held JSON null), which makes the subsequent
sanitising list comprehension raise `TypeError`. -/
def determineUserNameVal (m : FieldMap) : Option String :=
  let v0 : Option String :=
    match pickUserNameKey m ["氏名", "利用者名", "利用者様", "利用者氏名"] with
    | some v => some v
    | none => some "名称未設定"
  if v0 = some "名称未設定" then
    match lookupStr m "氏名のふりがな" with
    | some v => v
    | none => v0
  else v0

/-- The tail of the handler from the Gemini call on (main.py lines 424-510):
overrides, `_sheet_name` injection (only when the mapping is non-empty),
user-name determination for the filename, sanitising, and `fill_excel` with
the caller-chosen `output_name`. -/
def processAI (tmpl : TemplateDef) (mf : ManualFields) (ai : AIResult)
    (templateWb : Workbook) (uuidHex nowDateStr : String) : ProcessResult :=
  match ai with
  | .error msg => .httpError 500 ("AI Processing failed: " ++ msg)
  | .ok fields =>
    let mapping := applyOverrides fields mf
    let sheetNameArg := if mapping = [] then none else tmpl.sheet_name
    match determineUserNameVal mapping with
    | none =>
      .httpError 500 "Excel generation failed: \x27NoneType\x27 object is not iterable"
    | some user_name_val =>
      let custom_filename :=
        nowDateStr ++ "_" ++ tmpl.name ++ "【" ++ sanitizeName user_name_val ++ "】.xlsx"
      let r := fill_excel templateWb mapping sheetNameArg tmpl.mapping
        (some custom_filename) uuidHex
      .ok r.filename r.workbook

/-- The handler once the template id has been resolved: the template-file
check, the (caught and re-wrapped) empty-input check, then the AI stage. -/
def processWithTemplate (tmpl : TemplateDef) (templateFileExists : Bool)
    (text_input : Option String) (mf : ManualFields) (fileNames : List String)
    (ai : AIResult) (templateWb : Workbook) (uuidHex nowDateStr : String) : ProcessResult :=
  if templateFileExists = false then
    .httpError 500 ("Template file not found: " ++ tmpl.filename)
  else if orEmpty text_input ++ manualInfoText mf = ""
      ∧ (fileNames.filter (fun n => n ≠ "")).map (fun n => uuidHex ++ "_" ++ n) = [] then
    .httpError 500 "AI Processing failed: 400: No input provided (files or text)."
  else processAI tmpl mf ai templateWb uuidHex nowDateStr

/-- The `/process` handler `process_data`.  Control flow from the source:
an unknown template id raises 400 before the `try`; a missing template file
raises 500; the empty-input check raises `HTTPException(400, ...)` *inside*
the `try` whose `except Exception` catches it (FastAPI's `HTTPException`
subclasses `Exception`) and re-raises it as
`HTTPException(500, f"AI Processing failed: {str(e)}")`, `str` of a Starlette
`HTTPException` being `"{status_code}: {detail}"`; an AI failure follows the
same path with its own message; then the priority overrides run, the output
filename is built from the current date, template name and sanitised user
name, and `fill_excel` is called with that name. -/
def process_data (registry : List (String × TemplateDef)) (templateFileExists : Bool)
    (template_id : String) (text_input : Option String) (mf : ManualFields)
    (fileNames : List String) (ai : AIResult) (templateWb : Workbook)
    (uuidHex : String) (nowDateStr : String) : ProcessResult :=
  match lookupStr registry template_id with
  | none => .httpError 400 "Invalid template ID"
  | some tmpl =>
    processWithTemplate tmpl templateFileExists text_input mf fileNames ai templateWb
      uuidHex nowDateStr

/-! ### C1: empty input on a valid template -/

/-- Registry and template workbook for the C1 evaluation. -/
def c1Registry : List (String × TemplateDef) :=
  [("monitoring", { name := "モニタリング記録", filename := "template/monitoring.xlsx",
                    sheet_name := some "Sheet1", mapping := [("氏名", "C3")] })]

def c1Workbook : Workbook := ⟨[⟨"Sheet1", [("C3", blankCell)]⟩]⟩

/-- C1 (behaviour the code actually has, contradicting the claim): with a
registered template id, no text, no manual fields and no files, the
handler's own `HTTPException(400, "No input provided (files or text).")`
raised at main.py line 412 is caught by the catch-all `except Exception` at
line 473 and re-raised as HTTP **500**, so the request returns 500, not the
claimed 400. -/
theorem claim_C1_empty_input_returns_500 :
    process_data c1Registry true "monitoring" none emptyManualFields [] (.ok [])
        c1Workbook "deadbeef" "26.10.12"
      = .httpError 500 "AI Processing failed: 400: No input provided (files or text)." := by
  decide

/-! ### C9: output filenames carry no random suffix -/

/-- Registry and template workbook for C9. -/
def c9Registry : List (String × TemplateDef) :=
  [("monitoring", { name := "モニタリング記録", filename := "template/monitoring.xlsx",
                    sheet_name := some "Sheet1", mapping := [("氏名", "C3")] })]

def c9Workbook : Workbook := ⟨[⟨"Sheet1", [("C3", blankCell)]⟩]⟩

/-- C9 counterexample: two `/process` requests with identical date, template
and user name but different freshly drawn uuids (the only per-request
randomness) produce the *same* output filename — the name is built solely
from date, template name and sanitised user name, so the claimed "random
unique suffix" does not exist. -/
theorem claim_C9_counterexample :
    (process_data c9Registry true "monitoring" (some "記録テキスト") emptyManualFields []
        (.ok [("氏名", some "Taro")]) c9Workbook "1111aaaa" "26.10.12").filenameOf
      = some "26.10.12_モニタリング記録【Taro】.xlsx"
    ∧ (process_data c9Registry true "monitoring" (some "記録テキスト") emptyManualFields []
        (.ok [("氏名", some "Taro")]) c9Workbook "2222bbbb" "26.10.12").filenameOf
      = some "26.10.12_モニタリング記録【Taro】.xlsx" := by
  decide

/-- C9 amended: the handler's result — in particular the output filename —
does not depend on the drawn uuid at all.  Output names are deterministic in
(current date, template name, sanitised user name); uuids only name the
temporary uploaded-file copies, and `fill_excel`'s uuid-suffixed fallback
name is unreachable from `/process`, which always supplies `output_name`. -/
theorem claim_C9_amended (registry : List (String × TemplateDef)) (templateFileExists : Bool)
    (template_id : String) (text_input : Option String) (mf : ManualFields)
    (fileNames : List String) (ai : AIResult) (templateWb : Workbook)
    (u1 u2 : String) (nowDateStr : String) :
    process_data registry templateFileExists template_id text_input mf fileNames ai
        templateWb u1 nowDateStr
      = process_data registry templateFileExists template_id text_input mf fileNames ai
          templateWb u2 nowDateStr := by
  unfold process_data
  cases lookupStr registry template_id with
  | none => rfl
  | some tmpl =>
    show processWithTemplate tmpl templateFileExists text_input mf fileNames ai templateWb
          u1 nowDateStr
      = processWithTemplate tmpl templateFileExists text_input mf fileNames ai templateWb
          u2 nowDateStr
    simp only [processWithTemplate, List.map_eq_nil_iff]
    by_cases hex : templateFileExists = false
    · rw [if_pos hex, if_pos hex]
    · rw [if_neg hex, if_neg hex]
      by_cases hc : orEmpty text_input ++ manualInfoText mf = ""
          ∧ fileNames.filter (fun n => n ≠ "") = []
      · rw [if_pos hc, if_pos hc]
      · rw [if_neg hc, if_neg hc]
        cases ai with
        | error msg => rfl
        | ok fields =>
          cases hdet : determineUserNameVal (applyOverrides fields mf) with
          | none =>
            simp only [processAI, hdet]
          | some user_name_val =>
            simp only [processAI, hdet]
            rfl

end WelfareApp
